import Mathlib

/-!
Shallow embedding of `main.py` of PortalSDKWachtower: a polling script that
fetches the latest Portal SDK version record, compares it against a baseline,
persists the new record to a lock file and sends a Discord notification when
the record changed.

Numbers that Python holds as `float` are modelled by exact fractions
(`Frac`, an unnormalised integer numerator over a natural denominator).
All operations performed by the script on these numbers (division by the
unit step, comparison against a threshold, absolute value, rounding for
fixed-point rendering) are exact on the concrete values the claims are
about, so the exact-fraction model agrees with IEEE float evaluation there.
-/

/-- Exact fraction: numerator over denominator, never normalised.  All the
operations we need (comparison, division by a unit step, negation) are plain
integer arithmetic, so every concrete evaluation reduces in the kernel. -/
structure Frac where
  n : Int
  d : Nat
  deriving DecidableEq, Repr

namespace Frac

/-- Embed an integer (Python: an `int` byte count). -/
def ofInt (i : Int) : Frac := ⟨i, 1⟩

/-- `a < b` on fractions with positive denominators. -/
def lt (a b : Frac) : Bool := a.n * (b.d : Int) < b.n * (a.d : Int)

/-- Divide by a natural number (Python: `num /= unit_step`). -/
def divNat (a : Frac) (k : Nat) : Frac := ⟨a.n, a.d * k⟩

/-- Negation. -/
def neg (a : Frac) : Frac := ⟨-a.n, a.d⟩

/-- Subtraction (used for `unit_step - PRECISION_OFFSETS[precision]`). -/
def sub (a b : Frac) : Frac := ⟨a.n * (b.d : Int) - b.n * (a.d : Int), a.d * b.d⟩

/-- Scale by a power of ten (used when rendering `p` decimal places). -/
def mulPow10 (a : Frac) (p : Nat) : Frac := ⟨a.n * (10 : Int) ^ p, a.d⟩

/-- Is the number negative (Python: `num < 0`)?  Denominators are positive
in every value the script builds. -/
def isNeg (a : Frac) : Bool := a.n < 0

end Frac

/-- Round a fraction to the nearest integer, ties to even — the rounding of
Python's fixed-point float formatting `"{:.pf}"` at the exactly-representable
values this development evaluates. -/
def roundHalfEven (a : Frac) : Int :=
  let q := a.n.ediv (a.d : Int)
  let r := a.n.emod (a.d : Int)
  if 2 * r < (a.d : Int) then q
  else if (a.d : Int) < 2 * r then q + 1
  else if q % 2 = 0 then q else q + 1

/-- Left-pad a digit string with zeros to length `l`. -/
def padZeros (s : String) (l : Nat) : String :=
  String.mk (List.replicate (l - s.length) '0') ++ s

/-- Render a non-negative fraction with exactly `p` decimal places — the
body of `HumanBytes.PRECISION_FORMATS[p]` (Python `"{:.pf}".format(num)`). -/
def renderFixed (a : Frac) (p : Nat) : String :=
  let scaled := roundHalfEven (a.mulPow10 p)
  if p = 0 then toString scaled
  else
    let base : Int := (10 : Int) ^ p
    toString (scaled.ediv base) ++ "." ++ padZeros (toString (scaled.emod base).natAbs) p

namespace HumanBytes

/-- `HumanBytes.METRIC_LABELS` from `main.py`. -/
def METRIC_LABELS : List String := ["B", "kB", "MB", "GB", "TB", "PB", "EB", "ZB", "YB"]

/-- `HumanBytes.BINARY_LABELS` from `main.py`. -/
def BINARY_LABELS : List String := ["B", "KiB", "MiB", "GiB", "TiB", "PiB", "EiB", "ZiB", "YiB"]

/-- `HumanBytes.PRECISION_OFFSETS = [0.5, 0.05, 0.005, 0.0005]` from `main.py`. -/
def PRECISION_OFFSETS : List Frac := [⟨1, 2⟩, ⟨1, 20⟩, ⟨1, 200⟩, ⟨1, 2000⟩]

/-- The unit-selection loop of `HumanBytes.format`: walk the unit labels;
stop at the current unit once `num < unit_step_thresh`, otherwise divide
`num` by `unit_step` unless the current unit is the last label.  Returns the
shrunk number together with the selected unit label. -/
def formatSelect (step : Nat) (thresh : Frac) (last : String) :
    Frac → List String → Frac × String
  | num, [] => (num, last)
  | num, u :: rest =>
    if Frac.lt num thresh then (num, u)
    else
      let num2 := if u = last then num else num.divNat step
      match rest with
      | [] => (num2, u)
      | v :: vs => formatSelect step thresh last num2 (v :: vs)

/-- The unit label `HumanBytes.format num metric precision` renders with. -/
def formatUnit (num : Frac) (metric : Bool) (precision : Nat) : String :=
  let labels := if metric then METRIC_LABELS else BINARY_LABELS
  let last := labels.getLastD ""
  let step : Nat := if metric then 1000 else 1024
  let thresh := Frac.sub (Frac.ofInt step) (PRECISION_OFFSETS.getD precision ⟨0, 1⟩)
  (formatSelect step thresh last num labels).2

/-- Everything of `HumanBytes.format` after the sign handling: select the
unit, then render `"{:.pf} unit"`. -/
def formatCore (num : Frac) (metric : Bool) (precision : Nat) : String :=
  let labels := if metric then METRIC_LABELS else BINARY_LABELS
  let last := labels.getLastD ""
  let step : Nat := if metric then 1000 else 1024
  let thresh := Frac.sub (Frac.ofInt step) (PRECISION_OFFSETS.getD precision ⟨0, 1⟩)
  let sel := formatSelect step thresh last num labels
  renderFixed sel.1 precision ++ " " ++ sel.2

/-- `HumanBytes.format` from `main.py`: human-readable byte formatting.
`is_negative = num < 0`; the absolute value runs through the unit loop and
the result carries a `-` prefix when the input was negative. -/
def format (num : Frac) (metric : Bool) (precision : Nat) : String :=
  if num.isNeg then "-" ++ formatCore num.neg metric precision
  else formatCore num metric precision

end HumanBytes

/-- `VersionEntry` from `main.py`: one entry of the remote `versions`
sequence; `fileSize` is coerced to `int` by the fetcher. -/
structure VersionEntry where
  version : String
  fileSize : Int
  deriving DecidableEq, Repr

/-- The shape of a successful HTTP response of the remote metadata
endpoint: a status code and the parsed `versions` sequence (an absent
`versions` field parses as the empty list, matching `data.get('versions', [])`). -/
structure Response where
  statusCode : Nat
  versions : List VersionEntry
  deriving DecidableEq, Repr

/-- Outcome of the outbound HTTP GET: either a response arrived, or the
network request failed outright (Python: `httpx.RequestError`). -/
inductive FetchResult where
  | success (resp : Response)
  | netError
  deriving DecidableEq, Repr

/-- `get_version_details` from `main.py`, applied to an arrived response:
`None` unless the status is 200 and the `versions` list is non-empty;
otherwise the last element of the list (`versions_list[-1]`). -/
def get_version_details (resp : Response) : Option VersionEntry :=
  if resp.statusCode ≠ 200 then none
  else match resp.versions.getLast? with
    | none => none
    | some entry => some entry

/-- The record `check_version` obtains from its fetch: a network failure is
caught by `except httpx.RequestError` and behaves like `details = None`. -/
def fetchDetails : FetchResult → Option VersionEntry
  | FetchResult.netError => none
  | FetchResult.success resp => get_version_details resp

/-- Observable outcome of one `check_version` call: the `(version, size)`
pair it returns, the lock-file write attempts (each with the record written,
Python: `json.dump(details, f)`) and the webhook notifications issued (each
with the arguments of `send_discord_webhook`). -/
structure TickResult where
  version : String
  fileSize : Int
  persistCalls : List VersionEntry
  notifyCalls : List (String × Int × String × Int)
  deriving DecidableEq, Repr

/-- `check_version` from `main.py`.  `persistOk` says whether the lock-file
write succeeds; when it raises, the `except` block logs and the webhook call
(placed after the write inside the same `try`) is never reached, but the
function still returns the new pair. -/
def check_version (currentVersion : String) (currentSize : Int)
    (outcome : FetchResult) (persistOk : Bool) : TickResult :=
  match fetchDetails outcome with
  | none => ⟨currentVersion, currentSize, [], []⟩
  | some details =>
    let version_mismatch := currentVersion ≠ details.version
    let size_mismatch := currentSize ≠ details.fileSize
    if version_mismatch ∨ size_mismatch then
      if persistOk then
        ⟨details.version, details.fileSize, [details],
          [(details.version, details.fileSize, currentVersion, currentSize)]⟩
      else
        ⟨details.version, details.fileSize, [details], []⟩
    else
      ⟨currentVersion, currentSize, [], []⟩

/-- The initialization path of `main` from `main.py`: when no (valid)
baseline was loaded, the baseline is obtained by
`check_version("INVALID", 0)`. -/
def startupInit (outcome : FetchResult) (persistOk : Bool) : TickResult :=
  check_version "INVALID" 0 outcome persistOk

/-- The signed delta string of `send_discord_webhook` from `main.py`:
`HumanBytes.format(file_size - old_size, metric=True, precision=3)`, with a
`+` prepended when `old_size < file_size`. -/
def size_change_string (file_size old_size : Int) : String :=
  let size_change := HumanBytes.format (Frac.ofInt (file_size - old_size)) true 3
  if old_size < file_size then "+" ++ size_change else size_change

/-- One embed field of the notification payload. -/
structure EmbedField where
  name : String
  value : String
  deriving DecidableEq, Repr

/-- The embed fields `send_discord_webhook` from `main.py` attaches to the
notification: version transition, human-readable size, download link, and —
only when `file_size - old_size != 0` — the signed size change. -/
def send_discord_webhook (version : String) (file_size : Int)
    (old_version : String) (old_size : Int) : List EmbedField :=
  [⟨"New Version", "`" ++ old_version ++ " -> " ++ version ++ "`"⟩,
   ⟨"File Size", HumanBytes.format (Frac.ofInt file_size) true 1⟩,
   ⟨"", "[Download](https://download.portal.battlefield.com/PortalSDK.zip)"⟩]
  ++ (if file_size - old_size ≠ 0
      then [⟨"Size Change", "`" ++ size_change_string file_size old_size ++ "`"⟩]
      else [])

/-- What `main` from `main.py` reads out of the lock file: `data.get('version')`
and `data.get('fileSize')`, each `None` when the field is absent. -/
structure LockData where
  version : Option String
  fileSize : Option Int
  deriving DecidableEq, Repr

/-- Python truthiness of `current_sdk_version : str | None`:
falsy when `None` or the empty string. -/
def truthyVersion : Option String → Bool
  | none => false
  | some s => !(s == "")

/-- Python truthiness of `current_sdk_size : float | None`:
falsy when `None` or zero. -/
def truthySize : Option Int → Bool
  | none => false
  | some n => !(n == 0)

/-- The startup test of `main` from `main.py`:
`if not current_sdk_version or not current_sdk_size`, deciding whether the
initialization fetch path runs.  `none` models a missing or unreadable lock
file (both variables stay `None`). -/
def needsInit : Option LockData → Bool
  | none => true
  | some d => !(truthyVersion d.version) || !(truthySize d.fileSize)

/-- Modelled from the spec (refinement side, for comparison with `needsInit`):
"both fields must be present and non-empty/non-null for the record to be
considered valid". -/
def specValidRecord (d : LockData) : Bool :=
  d.version.isSome && !(d.version == some "") && d.fileSize.isSome

/-- Claim C1, counterexample: with no durable baseline, the initializing
fetch returning `{version: "2.0.0", fileSize: 500}` does NOT leave the
notification list empty — the claim "startup baseline becomes the fetched
record and no notification call is made" is false at this input. -/
theorem c1_counterexample :
    ¬ ((startupInit (FetchResult.success ⟨200, [⟨"2.0.0", 500⟩]⟩) true).version = "2.0.0" ∧
       (startupInit (FetchResult.success ⟨200, [⟨"2.0.0", 500⟩]⟩) true).notifyCalls = []) := by
  decide

/-- Claim C1, amended: with no durable baseline, the initializing fetch
returning `{version: "2.0.0", fileSize: 500}` makes the startup baseline
that record, but a notification IS sent, with old version `"INVALID"` and
old size `0` — first-run initialization is not silent, because `main` runs
it through `check_version("INVALID", 0)`. -/
theorem c1_first_run_notifies :
    startupInit (FetchResult.success ⟨200, [⟨"2.0.0", 500⟩]⟩) true =
      ⟨"2.0.0", 500, [⟨"2.0.0", 500⟩], [("2.0.0", 500, "INVALID", 0)]⟩ := by
  decide

/-- Claim C2: when the fetched record matches the baseline in both fields,
`check_version` returns the baseline unchanged with no lock-file write and
no notification. -/
theorem c2_no_change_frame (b r : VersionEntry) (outcome : FetchResult) (persistOk : Bool)
    (hf : fetchDetails outcome = some r)
    (hv : r.version = b.version) (hs : r.fileSize = b.fileSize) :
    check_version b.version b.fileSize outcome persistOk = ⟨b.version, b.fileSize, [], []⟩ := by
  unfold check_version
  rw [hf]
  simp [hv, hs]

/-- Witness for C2 at baseline `("1.0.0", 1000)` and an identical fetched
record. -/
theorem c2_witness :
    check_version "1.0.0" 1000 (FetchResult.success ⟨200, [⟨"1.0.0", 1000⟩]⟩) true =
      ⟨"1.0.0", 1000, [], []⟩ :=
  c2_no_change_frame ⟨"1.0.0", 1000⟩ ⟨"1.0.0", 1000⟩
    (FetchResult.success ⟨200, [⟨"1.0.0", 1000⟩]⟩) true (by decide) rfl rfl

/-- Claim C3: when the fetched record differs from the baseline in the
version string or the size (or both), `check_version` returns the fetched
record, writes it to the lock file exactly once, and notifies exactly once
with `(new version, new size, old version, old size)`. -/
theorem c3_change_updates_and_notifies (b r : VersionEntry) (outcome : FetchResult)
    (hf : fetchDetails outcome = some r)
    (hne : r.version ≠ b.version ∨ r.fileSize ≠ b.fileSize) :
    check_version b.version b.fileSize outcome true =
      ⟨r.version, r.fileSize, [r], [(r.version, r.fileSize, b.version, b.fileSize)]⟩ := by
  unfold check_version
  rw [hf]
  have h : b.version ≠ r.version ∨ b.fileSize ≠ r.fileSize := by
    rcases hne with h | h
    · exact Or.inl (Ne.symm h)
    · exact Or.inr (Ne.symm h)
  simp [h]

/-- Witness for C3: baseline `("1.0.0", 1000)`, fetched `("1.0.1", 1200)`. -/
theorem c3_witness :
    check_version "1.0.0" 1000 (FetchResult.success ⟨200, [⟨"1.0.1", 1200⟩]⟩) true =
      ⟨"1.0.1", 1200, [⟨"1.0.1", 1200⟩], [("1.0.1", 1200, "1.0.0", 1000)]⟩ :=
  c3_change_updates_and_notifies ⟨"1.0.0", 1000⟩ ⟨"1.0.1", 1200⟩
    (FetchResult.success ⟨200, [⟨"1.0.1", 1200⟩]⟩) (by decide) (Or.inl (by decide))

/-- Claim C4: when the fetch yields no record — network failure, non-200
status, or a missing/empty `versions` sequence — `check_version` returns the
baseline unchanged with zero lock-file writes and zero notifications. -/
theorem c4_fetch_failure_frame (bv : String) (bs : Int) (persistOk : Bool)
    (outcome : FetchResult)
    (h : outcome = FetchResult.netError ∨
         ∃ resp, outcome = FetchResult.success resp ∧
           (resp.statusCode ≠ 200 ∨ resp.versions = [])) :
    check_version bv bs outcome persistOk = ⟨bv, bs, [], []⟩ := by
  have hf : fetchDetails outcome = none := by
    rcases h with h | ⟨resp, hr, h2 | h2⟩
    · rw [h]; rfl
    · rw [hr]; simp [fetchDetails, get_version_details, h2]
    · rw [hr]; simp [fetchDetails, get_version_details, h2]
  unfold check_version
  rw [hf]

/-- Witness for C4 at a network failure. -/
theorem c4_witness :
    check_version "1.0.0" 1000 FetchResult.netError true = ⟨"1.0.0", 1000, [], []⟩ :=
  c4_fetch_failure_frame "1.0.0" 1000 true FetchResult.netError (Or.inl rfl)

/-- Claim C5, counterexample: `HumanBytes.format(1023, metric=True)` selects
the unit `kB`, not `B` — the metric threshold for staying at `B` is
`1000 - 0.05 = 999.95` and `1023` exceeds it, so the rendered string is
`"1.0 kB"`. -/
theorem c5_counterexample :
    HumanBytes.formatUnit (Frac.ofInt 1023) true 1 ≠ "B" ∧
    HumanBytes.format (Frac.ofInt 1023) true 1 = "1.0 kB" := by
  decide

/-- Claim C5, amended: metric formatting of `1023` bytes yields `"1.0 kB"`
(unit `kB`); the unit `B` for `1023` appears in binary formatting, which
yields `"1023.0 B"`; metric formatting of `1000000` bytes yields `"1.0 MB"`,
unit `MB` with numeric portion `1.0`. -/
theorem c5_amended :
    HumanBytes.format (Frac.ofInt 1023) true 1 = "1.0 kB" ∧
    HumanBytes.format (Frac.ofInt 1023) false 1 = "1023.0 B" ∧
    HumanBytes.format (Frac.ofInt 1000000) true 1 = "1.0 MB" ∧
    HumanBytes.formatUnit (Frac.ofInt 1000000) true 1 = "MB" := by
  decide

/-- Claim C6: the rendered delta string starts with `+` when the new size is
greater than the old, starts with `-` when it is smaller, and when the sizes
are equal no `Size Change` field appears in the notification payload. -/
theorem c6_delta_sign (v ov : String) (fs os : Int) :
    (os < fs → ∃ t, size_change_string fs os = "+" ++ t) ∧
    (fs < os → ∃ t, size_change_string fs os = "-" ++ t) ∧
    (fs = os →
      (send_discord_webhook v fs ov os).filter (fun f => f.name == "Size Change") = []) := by
  refine ⟨?_, ?_, ?_⟩
  · intro h
    refine ⟨HumanBytes.format (Frac.ofInt (fs - os)) true 3, ?_⟩
    simp [size_change_string, h]
  · intro h
    have h1 : ¬ (os < fs) := by omega
    have h2 : (Frac.ofInt (fs - os)).isNeg = true := by
      simp [Frac.ofInt, Frac.isNeg]; omega
    refine ⟨HumanBytes.formatCore (Frac.ofInt (fs - os)).neg true 3, ?_⟩
    simp [size_change_string, h1, HumanBytes.format, h2]
  · intro h
    subst h
    simp [send_discord_webhook]

/-- Witness for C6: the three cases at sizes `1200 > 1000`, `800 < 1000`,
and `1000 = 1000`. -/
theorem c6_witness :
    (∃ t, size_change_string 1200 1000 = "+" ++ t) ∧
    (∃ t, size_change_string 800 1000 = "-" ++ t) ∧
    (send_discord_webhook "1.0.1" 1000 "1.0.0" 1000).filter
      (fun f => f.name == "Size Change") = [] :=
  ⟨(c6_delta_sign "1.0.1" "1.0.0" 1200 1000).1 (by decide),
   (c6_delta_sign "1.0.1" "1.0.0" 800 1000).2.1 (by decide),
   (c6_delta_sign "1.0.1" "1.0.0" 1000 1000).2.2 rfl⟩

/-- Claim C7, counterexample: the record `{version: "1.0.0", fileSize: 0}`
has both fields present and non-empty/non-null — valid per the claim — yet
`main`'s truthiness test (`if not current_sdk_version or not
current_sdk_size`) treats it as no baseline and runs the initialization
fetch path, because `0` is falsy in Python. -/
theorem c7_counterexample :
    specValidRecord ⟨some "1.0.0", some 0⟩ = true ∧
    needsInit (some ⟨some "1.0.0", some 0⟩) = true := by
  decide

/-- Claim C7, amended: a loaded baseline skips the initialization fetch path
iff its version is present and non-empty AND its fileSize is present and
non-zero (Python truthiness — a record with `fileSize = 0` is treated as no
baseline); a missing or unreadable lock file always triggers it. -/
theorem c7_validity_truthiness :
    needsInit none = true ∧
    ∀ d : LockData,
      (needsInit (some d) = false ↔ (d.version.getD "" ≠ "" ∧ d.fileSize.getD 0 ≠ 0)) := by
  refine ⟨rfl, ?_⟩
  intro d
  obtain ⟨v, s⟩ := d
  cases v <;> cases s <;>
    simp [needsInit, truthyVersion, truthySize]

/-- Claim C8: on a detected change with a failing lock-file write, the
failure is absorbed and the in-memory baseline still advances —
`check_version` returns the fetched record, not the old baseline. -/
theorem c8_persist_failure_still_advances (b r : VersionEntry) (outcome : FetchResult)
    (hf : fetchDetails outcome = some r)
    (hne : r.version ≠ b.version ∨ r.fileSize ≠ b.fileSize) :
    (check_version b.version b.fileSize outcome false).version = r.version ∧
    (check_version b.version b.fileSize outcome false).fileSize = r.fileSize := by
  have h : b.version ≠ r.version ∨ b.fileSize ≠ r.fileSize := by
    rcases hne with h | h
    · exact Or.inl (Ne.symm h)
    · exact Or.inr (Ne.symm h)
  unfold check_version
  rw [hf]
  simp [h]

/-- Witness for C8: baseline `("1.0.0", 1000)`, fetched `("1.0.1", 1200)`,
failing write. -/
theorem c8_witness :
    (check_version "1.0.0" 1000 (FetchResult.success ⟨200, [⟨"1.0.1", 1200⟩]⟩) false).version =
      "1.0.1" ∧
    (check_version "1.0.0" 1000 (FetchResult.success ⟨200, [⟨"1.0.1", 1200⟩]⟩) false).fileSize =
      1200 :=
  c8_persist_failure_still_advances ⟨"1.0.0", 1000⟩ ⟨"1.0.1", 1200⟩
    (FetchResult.success ⟨200, [⟨"1.0.1", 1200⟩]⟩) (by decide) (Or.inl (by decide))

/-- Claim C9: persistence and notification share one error scope — on a
detected change whose lock-file write raises, the write was attempted but
the webhook notification is never issued in that tick. -/
theorem c9_notification_needs_persistence (b r : VersionEntry) (outcome : FetchResult)
    (hf : fetchDetails outcome = some r)
    (hne : r.version ≠ b.version ∨ r.fileSize ≠ b.fileSize) :
    (check_version b.version b.fileSize outcome false).persistCalls = [r] ∧
    (check_version b.version b.fileSize outcome false).notifyCalls = [] := by
  have h : b.version ≠ r.version ∨ b.fileSize ≠ r.fileSize := by
    rcases hne with h | h
    · exact Or.inl (Ne.symm h)
    · exact Or.inr (Ne.symm h)
  unfold check_version
  rw [hf]
  simp [h]

/-- Witness for C9: baseline `("1.0.0", 1000)`, fetched `("1.0.1", 1200)`,
failing write. -/
theorem c9_witness :
    (check_version "1.0.0" 1000 (FetchResult.success ⟨200, [⟨"1.0.1", 1200⟩]⟩) false).persistCalls =
      [⟨"1.0.1", 1200⟩] ∧
    (check_version "1.0.0" 1000 (FetchResult.success ⟨200, [⟨"1.0.1", 1200⟩]⟩) false).notifyCalls =
      [] :=
  c9_notification_needs_persistence ⟨"1.0.0", 1000⟩ ⟨"1.0.1", 1200⟩
    (FetchResult.success ⟨200, [⟨"1.0.1", 1200⟩]⟩) (by decide) (Or.inl (by decide))

/-- Claim C10: `HumanBytes.format` is sign-symmetric — for every strictly
positive number, metric flag, and precision in `0..3`, formatting the
negation yields `"-"` prepended to the formatting of the number. -/
theorem c10_format_sign_symmetric (x : Frac) (m : Bool) (p : Nat)
    (hpos : 0 < x.n) (_hp : p ≤ 3) :
    HumanBytes.format (Frac.neg x) m p = "-" ++ HumanBytes.format x m p := by
  have h1 : (Frac.neg x).isNeg = true := by
    simp [Frac.neg, Frac.isNeg]; omega
  have h2 : x.isNeg = false := by
    simp [Frac.isNeg]; omega
  have h3 : (Frac.neg x).neg = x := by
    obtain ⟨n, d⟩ := x
    simp [Frac.neg]
  rw [HumanBytes.format, HumanBytes.format, h1, h2, h3]
  simp

/-- Witness for C10 at `200` bytes, metric, precision 3. -/
theorem c10_witness :
    HumanBytes.format (Frac.neg (Frac.ofInt 200)) true 3 =
      "-" ++ HumanBytes.format (Frac.ofInt 200) true 3 :=
  c10_format_sign_symmetric (Frac.ofInt 200) true 3 (by decide) (by decide)
